import Mathlib

/-!
Shallow embedding of the adaptive throttling and resilience controller of the
linkedin-networking-bot repository, together with theorems settling the
specification claims.  Each definition is translated from the corresponding
JavaScript source (`src/rate-limiter.mjs`, the error handler, the second
variant of `src/session-manager.mjs`, the `ProxyManager`, and the
`QueueManager`).  JavaScript numbers are modelled as rationals; where the code
can produce `NaN` (arithmetic on a missing map entry) a score value is an
`Option ℚ` with `none` standing for `NaN`/`undefined`, whose propagation
through `-`, `+`, `Math.max`, `Math.min`, `<=` and `||` mirrors JavaScript.
-/

/-! ## RateLimiter (src/rate-limiter.mjs) -/

/-- The clock facts the rate limiter reads from `new Date()`:
`toDateString()`, `getDay()` and `getHours()`. -/
structure RLClock where
  dateString : String
  day : Nat
  hour : Nat
deriving DecidableEq, Repr

/-- Mutable fields of the `RateLimiter` singleton that the modelled
operations touch. -/
structure RateLimiterState where
  connectionCount : Nat
  weeklyConnectionCount : Nat
  messageCount : Nat
  lastResetDate : String
  lastWeeklyReset : String
  consecutiveFailures : Nat
  backoffMultiplier : ℚ
deriving DecidableEq, Repr

/-- `this.dailyConnectionLimit = 15` from the constructor. -/
def dailyConnectionLimit : Nat := 15

/-- `this.weeklyConnectionLimit = 80` from the constructor. -/
def weeklyConnectionLimit : Nat := 80

/-- `this.dailyMessageLimit = 50` from the constructor. -/
def dailyMessageLimit : Nat := 50

/-- Constructor state: counters zero, `consecutiveFailures = 0`,
`backoffMultiplier = 1`, both reset anchors set to the current date string. -/
def RateLimiterState.init (d : String) : RateLimiterState :=
  { connectionCount := 0
    weeklyConnectionCount := 0
    messageCount := 0
    lastResetDate := d
    lastWeeklyReset := d
    consecutiveFailures := 0
    backoffMultiplier := 1 }

/-- `resetCounters()`: resets daily counters when the date string changed,
and weekly counters (plus the backoff state) on a Monday whose date string
differs from the last weekly reset. -/
def resetCounters (c : RLClock) (s : RateLimiterState) : RateLimiterState :=
  let s1 :=
    if c.dateString ≠ s.lastResetDate then
      { s with connectionCount := 0, messageCount := 0, lastResetDate := c.dateString }
    else s
  if c.day = 1 ∧ c.dateString ≠ s1.lastWeeklyReset then
    { s1 with weeklyConnectionCount := 0, lastWeeklyReset := c.dateString,
              consecutiveFailures := 0, backoffMultiplier := 1 }
  else s1

/-- Reasons `checkConnectionLimit` can refuse, one per `return false` site. -/
inductive DenyReason
  | dailyLimit
  | weeklyLimit
  | outsideHours
deriving DecidableEq, Repr

/-- Outcome of an admission check. -/
inductive AdmitDecision
  | admitted
  | denied (r : DenyReason)
deriving DecidableEq, Repr

/-- `checkConnectionLimit()`: runs `resetCounters`, then refuses when the
daily count reached its limit, when the weekly count reached its limit, or
when the hour is outside 8..22; otherwise admits.  The returned state is the
post-`resetCounters` state: denial itself writes nothing. -/
def checkConnectionLimit (c : RLClock) (s : RateLimiterState) :
    AdmitDecision × RateLimiterState :=
  let s' := resetCounters c s
  if dailyConnectionLimit ≤ s'.connectionCount then (.denied .dailyLimit, s')
  else if weeklyConnectionLimit ≤ s'.weeklyConnectionCount then (.denied .weeklyLimit, s')
  else if c.hour < 8 ∨ 22 < c.hour then (.denied .outsideHours, s')
  else (.admitted, s')

/-- `incrementConnectionCount()`: runs `resetCounters`, then increments the
daily and weekly connection counters. -/
def incrementConnectionCount (c : RLClock) (s : RateLimiterState) : RateLimiterState :=
  let s' := resetCounters c s
  { s' with connectionCount := s'.connectionCount + 1,
            weeklyConnectionCount := s'.weeklyConnectionCount + 1 }

/-- The state change of `handleRateLimit` when a rate-limit selector is found:
`consecutiveFailures++` and
`backoffMultiplier = Math.min(Math.pow(2, consecutiveFailures - 1), 8)`. -/
def handleRateLimitDetected (s : RateLimiterState) : RateLimiterState :=
  let cf := s.consecutiveFailures + 1
  { s with consecutiveFailures := cf,
           backoffMultiplier := min ((2 : ℚ) ^ (cf - 1)) 8 }

/-- The state change of `handleRateLimit` when no selector matches:
`consecutiveFailures` drops by one (floored at 0) and the multiplier decays
by the factor 0.75 (floored at 1). -/
def handleRateLimitClear (s : RateLimiterState) : RateLimiterState :=
  if 0 < s.consecutiveFailures then
    { s with consecutiveFailures := s.consecutiveFailures - 1,
             backoffMultiplier := max 1 (s.backoffMultiplier * (3 / 4)) }
  else s

lemma handleRateLimitDetected_cf (n : Nat) (s : RateLimiterState) :
    (handleRateLimitDetected^[n] s).consecutiveFailures = s.consecutiveFailures + n := by
  induction n with
  | zero => simp
  | succ m ih =>
      rw [Function.iterate_succ_apply']
      simp [handleRateLimitDetected, ih, Nat.add_assoc]

/-- **C1.** For every `n ≥ 1`, after `n` consecutive detection signals with no
intervening detection-free check, starting from the constructor state, the
backoff multiplier equals `min 8 (2 ^ (n - 1))`. -/
theorem backoff_after_consecutive_detections (n : Nat) (d : String) (h : 1 ≤ n) :
    (handleRateLimitDetected^[n] (RateLimiterState.init d)).backoffMultiplier
      = min 8 ((2 : ℚ) ^ (n - 1)) := by
  obtain ⟨m, rfl⟩ : ∃ m, n = m + 1 := ⟨n - 1, (Nat.succ_pred_eq_of_pos h).symm⟩
  rw [Function.iterate_succ_apply']
  have hcf : (handleRateLimitDetected^[m] (RateLimiterState.init d)).consecutiveFailures = m := by
    rw [handleRateLimitDetected_cf]; simp [RateLimiterState.init]
  simp [handleRateLimitDetected, hcf, min_comm]

/-- Witness for C1 at `n = 10`: the multiplier is still 8 after ten
consecutive detections. -/
theorem backoff_after_consecutive_detections_witness :
    1 ≤ 10 ∧
      (handleRateLimitDetected^[10] (RateLimiterState.init "Mon Apr 07 2025")).backoffMultiplier
        = min 8 ((2 : ℚ) ^ (10 - 1)) :=
  ⟨by decide, backoff_after_consecutive_detections 10 "Mon Apr 07 2025" (by decide)⟩

/-- On a clock whose date string matches both reset anchors, `resetCounters`
is the identity. -/
lemma resetCounters_same_day (c : RLClock) (s : RateLimiterState)
    (hd : c.dateString = s.lastResetDate) (hw : c.dateString = s.lastWeeklyReset) :
    resetCounters c s = s := by
  have h2 : s.lastResetDate = s.lastWeeklyReset := hd ▸ hw
  simp [resetCounters, hd, hw, h2]

lemma incrementConnectionCount_same_day (c : RLClock) (s : RateLimiterState)
    (hd : c.dateString = s.lastResetDate) (hw : c.dateString = s.lastWeeklyReset) :
    incrementConnectionCount c s =
      { s with connectionCount := s.connectionCount + 1,
               weeklyConnectionCount := s.weeklyConnectionCount + 1 } := by
  simp [incrementConnectionCount, resetCounters_same_day c s hd hw]

/-- Iterating `incrementConnectionCount` on a same-day clock adds `k` to both
connection counters and changes nothing else. -/
lemma iterate_increment_same_day (c : RLClock) (k : Nat) (s : RateLimiterState)
    (hd : c.dateString = s.lastResetDate) (hw : c.dateString = s.lastWeeklyReset) :
    (incrementConnectionCount c)^[k] s =
      { s with connectionCount := s.connectionCount + k,
               weeklyConnectionCount := s.weeklyConnectionCount + k } := by
  induction k generalizing s with
  | zero => simp
  | succ m ih =>
      rw [Function.iterate_succ_apply, incrementConnectionCount_same_day c s hd hw, ih]
      · simp [Nat.add_assoc, Nat.add_comm 1 m]
      · exact hd
      · exact hw

/-- **C3.** With the daily connection limit 15: on a clock inside operating
hours, on the same calendar day as both reset anchors, starting from zero
daily connections and a weekly count at least 15 below the weekly limit,
after 15 recorded connection actions the 16th admission check is denied with
the daily-quota reason, and the denying check leaves the state unchanged. -/
theorem daily_quota_denies_sixteenth (c : RLClock) (s : RateLimiterState)
    (hd : c.dateString = s.lastResetDate) (hw : c.dateString = s.lastWeeklyReset)
    (hh1 : 8 ≤ c.hour) (hh2 : c.hour ≤ 22)
    (hc : s.connectionCount = 0) (hwc : s.weeklyConnectionCount + 15 ≤ 64) :
    checkConnectionLimit c ((incrementConnectionCount c)^[15] s)
      = (.denied .dailyLimit, (incrementConnectionCount c)^[15] s) := by
  rw [iterate_increment_same_day c 15 s hd hw]
  simp only [checkConnectionLimit]
  have hreset := resetCounters_same_day c
    { s with connectionCount := s.connectionCount + 15,
             weeklyConnectionCount := s.weeklyConnectionCount + 15 } hd hw
  rw [hreset]
  simp [hc, dailyConnectionLimit]

/-- Witness for C3 on a concrete clock and fresh state. -/
theorem daily_quota_denies_sixteenth_witness :
    checkConnectionLimit ⟨"Tue Apr 08 2025", 2, 12⟩
        ((incrementConnectionCount ⟨"Tue Apr 08 2025", 2, 12⟩)^[15]
          (RateLimiterState.init "Tue Apr 08 2025"))
      = (.denied .dailyLimit,
         (incrementConnectionCount ⟨"Tue Apr 08 2025", 2, 12⟩)^[15]
           (RateLimiterState.init "Tue Apr 08 2025")) :=
  daily_quota_denies_sixteenth ⟨"Tue Apr 08 2025", 2, 12⟩
    (RateLimiterState.init "Tue Apr 08 2025") rfl rfl (by decide) (by decide)
    rfl (by decide)

/-! ## Error handler (error-handler.mjs: SILENT_ERRORS, isSilentError, withRetry) -/

/-- `leadsWith pat msg` is true when `pat` is an initial segment of `msg`. -/
def leadsWith : List Char → List Char → Bool
  | [], _ => true
  | _ :: _, [] => false
  | p :: ps, m :: ms => p = m && leadsWith ps ms

/-- `occursIn pat msg` is true when `pat` occurs contiguously inside `msg`:
the semantics of JavaScript `msg.includes(pat)`. -/
def occursIn (pat : List Char) : List Char → Bool
  | [] => leadsWith pat []
  | m :: ms => leadsWith pat (m :: ms) || occursIn pat ms

/-- JavaScript `msg.includes(pat)`. -/
def jsIncludes (msg pat : String) : Bool :=
  occursIn pat.toList msg.toList

/-- The `SILENT_ERRORS` pattern table, verbatim from the error handler. -/
def SILENT_ERRORS : List String :=
  [ "net::ERR_FAILED"
  , "net::ERR_CONNECTION_TIMED_OUT"
  , "net::ERR_CONNECTION_RESET"
  , "net::ERR_CONNECTION_CLOSED"
  , "net::ERR_CONNECTION_REFUSED"
  , "net::ERR_NETWORK_CHANGED"
  , "net::ERR_INTERNET_DISCONNECTED"
  , "net::ERR_ABORTED"
  , "net::ERR_EMPTY_RESPONSE"
  , "net::ERR_NAME_NOT_RESOLVED"
  , "net::ERR_ADDRESS_UNREACHABLE"
  , "the server responded with a status of 400"
  , "the server responded with a status of 429"
  , "the server responded with a status of 403"
  , "the server responded with a status of 404"
  , "the server responded with a status of 500"
  , "the server responded with a status of 502"
  , "the server responded with a status of 503"
  , "the server responded with a status of 504"
  , "Error 400"
  , "Bad Request"
  , "status of 400"
  , "status: 400"
  , "ERR_TOO_MANY_REQUESTS"
  , "ERR_RATE_LIMITED"
  , "Too Many Requests"
  , "Rate limit exceeded"
  , "malformed JSON response"
  , "Failed to load resource"
  , "Navigation timeout"
  , "TimeoutError"
  , "Requesting main frame too early"
  , "Protocol error"
  , "Target closed"
  , "ERR_BLOCKED_BY_CLIENT"
  , "ERR_NETWORK_ACCESS_DENIED" ]

/-- `isSilentError(errorMessage)`:
`SILENT_ERRORS.some(pattern => errorMessage.includes(pattern))`. -/
def isSilentError (errorMessage : String) : Bool :=
  SILENT_ERRORS.any (fun pattern => jsIncludes errorMessage pattern)

/-- The failure taxonomy named by the specification. -/
inductive ErrorClass
  | silent
  | transient
  | rateLimited
  | fatal
deriving DecidableEq, Repr

/-- The classification the code actually implements: the only distinction the
error handler draws is `isSilentError`; every non-matching failure is handled
as an ordinary retryable (transient) failure, and no input is ever classified
as rate-limited or fatal at classification time. -/
def classify (msg : String) : ErrorClass :=
  if isSilentError msg then .silent else .transient

/-- **C2 counterexample.** `"status of 429"` is not classified as
rate-limited: no silent pattern matches it (the table only lists the longer
phrase about a 429 status), and the code has no rate-limited class at all, so
it is handled as an ordinary transient failure. -/
theorem classify_status429_not_rateLimited :
    classify "status of 429" = ErrorClass.transient ∧
      classify "status of 429" ≠ ErrorClass.rateLimited := by
  constructor
  · decide
  · decide

/-- **C2 amended.** `"net::ERR_CONNECTION_RESET"` is silent,
`"status of 429"` and the unmatched `"unknown xyz failure"` are both
transient, and no input is ever classified rate-limited: the code's matching
is a single flat substring table with no rate-limit priority tier. -/
theorem classify_amended_table :
    classify "net::ERR_CONNECTION_RESET" = ErrorClass.silent ∧
      classify "status of 429" = ErrorClass.transient ∧
      classify "unknown xyz failure" = ErrorClass.transient ∧
      ∀ msg, classify msg ≠ ErrorClass.rateLimited := by
  refine ⟨by decide, by decide, by decide, fun msg => ?_⟩
  cases h : isSilentError msg <;> simp [classify, h]

/-- `RETRY_CONFIG.maxRetries`. -/
def RETRY_maxRetries : Nat := 10

/-- Severity of a log line emitted during retries. -/
inductive LogLevel
  | debug
  | warn
deriving DecidableEq, Repr

/-- The log entry `withRetry` emits for a failed attempt: silent failures are
logged at debug severity, everything else at warn severity. -/
def retryLogEntry (e : String) : LogLevel × String :=
  (if isSilentError e then LogLevel.debug else LogLevel.warn, e)

/-- The retry loop of `withRetry`, with the remaining attempt budget as fuel:
attempt numbers count up from 1; each failing attempt is logged; when the
budget is exhausted the last failure is re-raised as-is. -/
def withRetryGo {α : Type} (op : Nat → Except String α) :
    Nat → Nat → String → Except String α × List (LogLevel × String)
  | _, 0, lastErr => (.error lastErr, [])
  | attempt, fuel + 1, _ =>
      match op attempt with
      | .ok a => (.ok a, [])
      | .error e =>
          let rest := withRetryGo op (attempt + 1) fuel e
          (rest.1, retryLogEntry e :: rest.2)

/-- `withRetry(operation)`: attempts 1 through `RETRY_CONFIG.maxRetries`. -/
def withRetry {α : Type} (op : Nat → Except String α) :
    Except String α × List (LogLevel × String) :=
  withRetryGo op 1 RETRY_maxRetries ""

lemma withRetryGo_all_fail {α : Type} (op : Nat → Except String α) (errs : Nat → String) :
    ∀ fuel attempt lastErr, 1 ≤ fuel →
      (∀ a, attempt ≤ a → a < attempt + fuel → op a = .error (errs a)) →
      withRetryGo op attempt fuel lastErr =
        (.error (errs (attempt + fuel - 1)),
         (List.range fuel).map (fun i => retryLogEntry (errs (attempt + i)))) := by
  intro fuel
  induction fuel with
  | zero => intro attempt lastErr h; omega
  | succ f ih =>
      intro attempt lastErr _ hop
      have hfirst : op attempt = .error (errs attempt) :=
        hop attempt le_rfl (by omega)
      rcases Nat.eq_zero_or_pos f with hf | hf
      · subst hf
        simp [withRetryGo, hfirst, List.range_succ]
      · have hrec := ih (attempt + 1) (errs attempt) hf
          (fun a h1 h2 => hop a (by omega) (by omega))
        simp only [withRetryGo, hfirst, hrec]
        have hidx : attempt + 1 + f - 1 = attempt + (f + 1) - 1 := by omega
        simp only [Prod.mk.injEq, hidx]
        refine ⟨trivial, ?_⟩
        rw [List.range_succ_eq_map]
        simp [Function.comp, Nat.add_assoc, Nat.add_comm 1]

/-- **C6.** If an operation fails on every one of the 10 attempts, `withRetry`
re-raises the 10th attempt's failure unchanged, and each failing attempt is
logged with debug severity exactly when its failure is silent-classified and
warn severity otherwise; the propagated result does not depend on the
classification. -/
theorem withRetry_exhaustion_propagates_last_error {α : Type}
    (op : Nat → Except String α) (errs : Nat → String)
    (h : ∀ a, 1 ≤ a → a ≤ RETRY_maxRetries → op a = .error (errs a)) :
    withRetry op =
      (.error (errs 10),
       (List.range 10).map (fun i => retryLogEntry (errs (1 + i)))) := by
  have := withRetryGo_all_fail op errs RETRY_maxRetries 1 "" (by decide)
    (fun a h1 h2 => h a h1 (by omega))
  simpa [withRetry, RETRY_maxRetries] using this

/-- Witness for C6 on a concrete always-failing operation mixing silent and
non-silent failures. -/
theorem withRetry_exhaustion_witness :
    (∀ a, 1 ≤ a → a ≤ RETRY_maxRetries →
        (fun a => Except.error (α := Nat) (if a ≤ 5 then "net::ERR_ABORTED" else "strange failure")) a
          = .error ((fun a => if a ≤ 5 then "net::ERR_ABORTED" else "strange failure") a)) ∧
      withRetry (fun a => Except.error (α := Nat) (if a ≤ 5 then "net::ERR_ABORTED" else "strange failure"))
        = (.error ((fun a => if a ≤ 5 then "net::ERR_ABORTED" else "strange failure") 10),
           (List.range 10).map (fun i =>
             retryLogEntry ((fun a => if a ≤ 5 then "net::ERR_ABORTED" else "strange failure") (1 + i)))) :=
  ⟨fun _ _ _ => rfl,
   withRetry_exhaustion_propagates_last_error
     (fun a => Except.error (if a ≤ 5 then "net::ERR_ABORTED" else "strange failure"))
     (fun a => if a ≤ 5 then "net::ERR_ABORTED" else "strange failure")
     (fun _ _ _ => rfl)⟩

/-! ## SessionManager (src/session-manager.mjs, detection-score variant) -/

/-- A browser cookie as the session manager sees it.  `expires` is the epoch
time in seconds; `none` models an absent field, and JavaScript treats an
`expires` of 0 as falsy as well. -/
structure Cookie where
  name : String
  value : String
  domain : String
  expires : Option ℚ
deriving DecidableEq, Repr

/-- `cookie.expires && cookie.expires < Date.now() / 1000` is the condition
under which the filter drops the cookie; this is its negation. -/
def cookieNotExpired (nowMs : ℚ) (c : Cookie) : Bool :=
  match c.expires with
  | none => true
  | some e => !(decide (e ≠ 0) && decide (e < nowMs / 1000))

/-- `filterValidCookies(cookies)`: keeps cookies that are unexpired, have a
non-empty name and value, and whose domain contains `linkedin.com`.  (The
local `essentialCookies` array the source declares first is never used.) -/
def filterValidCookies (nowMs : ℚ) (cookies : List Cookie) : List Cookie :=
  cookies.filter (fun c =>
    cookieNotExpired nowMs c
      && !(c.name = "") && !(c.value = "")
      && jsIncludes c.domain "linkedin.com")

/-- Mutable fields of the `SessionManager` (second variant) that the modelled
operations touch, plus the cookie store file as `storedCookies`. -/
structure SessionState where
  sessionStartTime : Option ℚ
  lastProxyRotation : Option ℚ
  detectionScore : ℚ
  lastCookieRotation : Option ℚ
  storedCookies : Option (List Cookie)
deriving DecidableEq, Repr

/-- Constructor state of the session manager: everything null, score 0. -/
def SessionState.init : SessionState :=
  { sessionStartTime := none
    lastProxyRotation := none
    detectionScore := 0
    lastCookieRotation := none
    storedCookies := none }

/-- `saveCookies(page)`: filters the live cookies; if nothing survives the
filter it throws `No valid cookies found` before writing anything; otherwise
it writes the filtered cookies to the store and stamps the session start. -/
def saveCookies (nowMs : ℚ) (pageCookies : List Cookie) (s : SessionState) :
    Except String SessionState :=
  let validCookies := filterValidCookies nowMs pageCookies
  if validCookies.length = 0 then .error "No valid cookies found"
  else .ok { s with storedCookies := some validCookies, sessionStartTime := some nowMs }

/-- ASCII case folding of one character, as `toLowerCase` acts on the
indicator alphabet. -/
def jsCharLower (c : Char) : Char :=
  if 65 ≤ c.toNat ∧ c.toNat ≤ 90 then Char.ofNat (c.toNat + 32) else c

/-- `content.toLowerCase()` restricted to ASCII case folding. -/
def jsToLowerCase (s : String) : String :=
  String.mk (s.toList.map jsCharLower)

/-- `BOT_DETECTION_INDICATORS`, verbatim; the apostrophe of the third entry
is spelled via its code point. -/
def BOT_DETECTION_INDICATORS : List String :=
  [ "unusual activity"
  , "security verification"
  , "prove you" ++ (Char.ofNat 39).toString ++ "re a human"
  , "confirm your identity"
  , "complete these steps"
  , "we need you to verify"
  , "please solve this puzzle" ]

/-- The loop over `BOT_DETECTION_INDICATORS` against the lower-cased page
content. -/
def contentHasIndicator (content : String) : Bool :=
  BOT_DETECTION_INDICATORS.any (fun ind => jsIncludes (jsToLowerCase content) ind)

/-- `SESSION_EXPIRY_TIME`: 2 hours in milliseconds. -/
def SESSION_EXPIRY_TIME : ℚ := 7200000

/-- `this.cookieRotationInterval`: 4 hours in milliseconds. -/
def cookieRotationInterval : ℚ := 14400000

/-- The missing-essential-cookie test of `validateSession`: each of `li_at`
and `JSESSIONID` must occur among the page cookies by name (name only — the
validation rechecks neither expiry nor domain). -/
def hasMissingEssential (cookies : List Cookie) : Bool :=
  0 < (["li_at", "JSESSIONID"].filter
        (fun n => !(cookies.any (fun c => c.name = n)))).length

/-- `this.sessionStartTime && (Date.now() - this.sessionStartTime >
SESSION_EXPIRY_TIME)`. -/
def sessionAgeExpired (nowMs : ℚ) (s : SessionState) : Bool :=
  match s.sessionStartTime with
  | none => false
  | some t => decide (t ≠ 0) && decide (SESSION_EXPIRY_TIME < nowMs - t)

/-- `this.lastCookieRotation && (Date.now() - this.lastCookieRotation >
this.cookieRotationInterval)`. -/
def cookieRotationDue (nowMs : ℚ) (s : SessionState) : Bool :=
  match s.lastCookieRotation with
  | none => false
  | some t => decide (t ≠ 0) && decide (cookieRotationInterval < nowMs - t)

/-- `validateSession(page)`: fails with a score bump of 2 when an indicator
occurs in the page content; then fails when an essential cookie name is
missing, the session age exceeds the TTL, the cookie-rotation interval has
passed, or the detection score is at least 5; on success the positive score
decays by 0.5, floored at 0. -/
def validateSession (nowMs : ℚ) (content : String) (cookies : List Cookie)
    (s : SessionState) : Bool × SessionState :=
  if contentHasIndicator content then
    (false, { s with detectionScore := s.detectionScore + 2 })
  else if hasMissingEssential cookies then (false, s)
  else if sessionAgeExpired nowMs s then (false, s)
  else if cookieRotationDue nowMs s then (false, s)
  else if 5 ≤ s.detectionScore then (false, s)
  else if 0 < s.detectionScore then
    (true, { s with detectionScore := max 0 (s.detectionScore - 1 / 2) })
  else (true, s)

/-- The essential-cookie criterion in the specification's words (present,
unexpired and scoped to the target domain), stated for comparison with what
`validateSession` and `saveCookies` actually check. -/
def specEssentialStrictOk (nowMs : ℚ) (cookies : List Cookie) : Bool :=
  ["li_at", "JSESSIONID"].all (fun n =>
    cookies.any (fun c =>
      c.name = n && jsIncludes c.domain "linkedin.com" && cookieNotExpired nowMs c))

/-- The specification's survival criterion for `persist`: some essential
cookie remains after filtering. -/
def specEssentialSurvives (l : List Cookie) : Bool :=
  l.any (fun c => c.name = "li_at" || c.name = "JSESSIONID")

/-- **C7.** `saveCookies` succeeds — and writes to the store — on a cookie
list whose filtered result contains no essential cookie at all: the filter
keeps every unexpired linkedin.com cookie (its `essentialCookies` local is
dead code), so nothing raises when authentication cookies are gone. -/
theorem saveCookies_succeeds_without_essential :
    saveCookies 1000000 [⟨"bcookie", "v", "www.linkedin.com", none⟩] SessionState.init
        = .ok { SessionState.init with
                  storedCookies := some [⟨"bcookie", "v", "www.linkedin.com", none⟩],
                  sessionStartTime := some 1000000 } ∧
      specEssentialSurvives
        (filterValidCookies 1000000 [⟨"bcookie", "v", "www.linkedin.com", none⟩]) = false := by
  constructor
  · rfl
  · decide

/-- **C9 counterexample.** `validateSession` judges a session valid although
both essential cookies are expired and scoped to a non-target domain: the
validation checks essential cookies by name presence only. -/
theorem validateSession_ignores_expiry_and_domain :
    (validateSession 1000000000000 "profile page"
        [⟨"li_at", "v", "www.evil.com", some 1⟩, ⟨"JSESSIONID", "v", "www.evil.com", some 1⟩]
        SessionState.init).1 = true ∧
      specEssentialStrictOk 1000000000000
        [⟨"li_at", "v", "www.evil.com", some 1⟩, ⟨"JSESSIONID", "v", "www.evil.com", some 1⟩]
        = false := by
  constructor
  · decide
  · decide

/-- **C9 amended.** A session is judged valid only if each essential cookie
name is present (expiry and domain are not rechecked during validation), no
detection indicator occurs in the page content, the session age is under the
TTL, the cookie-rotation interval has not elapsed, and the detection score is
under 5; a valid detection-free check decays the score by 0.5 floored at 0,
an observed indicator fails the check and raises the score by 2, and the
score never becomes negative. -/
theorem validateSession_amended (nowMs : ℚ) (content : String) (cookies : List Cookie)
    (s : SessionState) (hscore : 0 ≤ s.detectionScore) :
    ((validateSession nowMs content cookies s).1 = true →
        contentHasIndicator content = false ∧
        hasMissingEssential cookies = false ∧
        sessionAgeExpired nowMs s = false ∧
        cookieRotationDue nowMs s = false ∧
        s.detectionScore < 5 ∧
        (validateSession nowMs content cookies s).2.detectionScore
          = max 0 (s.detectionScore - 1 / 2)) ∧
      (contentHasIndicator content = true →
        (validateSession nowMs content cookies s).1 = false ∧
        (validateSession nowMs content cookies s).2.detectionScore
          = s.detectionScore + 2) ∧
      0 ≤ (validateSession nowMs content cookies s).2.detectionScore := by
  unfold validateSession
  split_ifs with h1 h2 h3 h4 h5 h6
  · exact ⟨fun hv => by simp at hv, fun _ => ⟨rfl, rfl⟩,
      by change 0 ≤ s.detectionScore + 2; linarith⟩
  · exact ⟨fun hv => by simp at hv, fun hc => absurd hc h1, hscore⟩
  · exact ⟨fun hv => by simp at hv, fun hc => absurd hc h1, hscore⟩
  · exact ⟨fun hv => by simp at hv, fun hc => absurd hc h1, hscore⟩
  · exact ⟨fun hv => by simp at hv, fun hc => absurd hc h1, hscore⟩
  · exact ⟨fun _ => ⟨by simpa using h1, by simpa using h2, by simpa using h3,
        by simpa using h4, not_le.mp h5, rfl⟩,
      fun hc => absurd hc h1, le_max_left 0 _⟩
  · have h0 : s.detectionScore = 0 := le_antisymm (not_lt.mp h6) hscore
    refine ⟨fun _ => ⟨by simpa using h1, by simpa using h2, by simpa using h3,
        by simpa using h4, not_le.mp h5, ?_⟩,
      fun hc => absurd hc h1, hscore⟩
    rw [h0]
    norm_num

/-- Witness for the amended C9 on a concrete detection-indicator page. -/
theorem validateSession_amended_witness :
    0 ≤ SessionState.init.detectionScore ∧
      (((validateSession 5 "security verification" [] SessionState.init).1 = true →
          contentHasIndicator "security verification" = false ∧
          hasMissingEssential [] = false ∧
          sessionAgeExpired 5 SessionState.init = false ∧
          cookieRotationDue 5 SessionState.init = false ∧
          SessionState.init.detectionScore < 5 ∧
          (validateSession 5 "security verification" [] SessionState.init).2.detectionScore
            = max 0 (SessionState.init.detectionScore - 1 / 2)) ∧
        (contentHasIndicator "security verification" = true →
          (validateSession 5 "security verification" [] SessionState.init).1 = false ∧
          (validateSession 5 "security verification" [] SessionState.init).2.detectionScore
            = SessionState.init.detectionScore + 2) ∧
        0 ≤ (validateSession 5 "security verification" [] SessionState.init).2.detectionScore) :=
  ⟨by decide,
   validateSession_amended 5 "security verification" [] SessionState.init (by decide)⟩

/-! ## ProxyManager (proxy-manager variant with reliability scores)

The source keys its `proxyScores` map inconsistently: `loadProxies` writes
under the address string (`proxy.proxy_address`) while `markProxySuccess`,
`markProxyFailure` and `validateProxies` read and write under the proxy
object itself, and `getNextProxy` reads and writes under the address again.
A JavaScript `Map` keeps those entries distinct, so keys are modelled as a
sum of an object identity and an address string.  A score read can yield
`undefined` (absent key), and arithmetic on it yields `NaN`; both behave
identically in every operation the code performs on scores (`- + Math.max
Math.min <= ||`), so a score value is an `Option ℚ` whose `none` covers
`NaN`/`undefined`. -/

/-- A proxy record; `idx` models JavaScript object identity within a load. -/
structure Proxy where
  idx : Nat
  proxy_address : String
  port : String
  username : String
  password : String
deriving DecidableEq, Repr

/-- A key of the `proxyScores` map / `blacklistedProxies` set: either a proxy
object or an address string. -/
inductive PKey
  | obj (i : Nat)
  | addr (a : String)
deriving DecidableEq, Repr

/-- A JavaScript number that may be `NaN` (modelled as `none`). -/
abbrev JNum := Option ℚ

/-- `Map.get`: an absent key yields `undefined`, collapsed into `none`. -/
def mapGet (m : List (PKey × JNum)) (k : PKey) : JNum :=
  match m.lookup k with
  | none => none
  | some v => v

/-- `Map.set` with first-entry-wins lookup. -/
def mapSet (m : List (PKey × JNum)) (k : PKey) (v : JNum) : List (PKey × JNum) :=
  (k, v) :: m

/-- JavaScript subtraction by a literal: `undefined`/`NaN` propagates. -/
def jsSub (v : JNum) (q : ℚ) : JNum := v.map (fun x => x - q)

/-- JavaScript addition of a literal: `undefined`/`NaN` propagates. -/
def jsAdd (v : JNum) (q : ℚ) : JNum := v.map (fun x => x + q)

/-- `Math.max(q, v)`: `NaN` absorbs. -/
def jsMaxNum (q : ℚ) (v : JNum) : JNum := v.map (fun x => max q x)

/-- `Math.min(q, v)`: `NaN` absorbs. -/
def jsMinNum (q : ℚ) (v : JNum) : JNum := v.map (fun x => min q x)

/-- `v <= q`: false when `v` is `NaN`/`undefined`. -/
def jsLeNum (v : JNum) (q : ℚ) : Bool :=
  match v with
  | none => false
  | some x => decide (x ≤ q)

/-- `v || d`: `undefined`, `NaN` and `0` all fall back to the default. -/
def jsOrDefault (v : JNum) (d : ℚ) : ℚ :=
  match v with
  | none => d
  | some x => if x = 0 then d else x

/-- Mutable fields of the `ProxyManager` that the modelled operations
touch. -/
structure ProxyPoolState where
  proxyList : List Proxy
  proxyScores : List (PKey × JNum)
  blacklistedProxies : List PKey
  lastProxyTest : List (String × ℚ)
  lastRotation : Option ℚ
deriving DecidableEq, Repr

/-- Constructor state: empty pool, empty maps. -/
def ProxyPoolState.init : ProxyPoolState :=
  { proxyList := []
    proxyScores := []
    blacklistedProxies := []
    lastProxyTest := []
    lastRotation := none }

/-- `this.proxyTestInterval`: 30 minutes in milliseconds. -/
def proxyTestInterval : ℚ := 1800000

/-- `this.maxRetries` of the proxy manager. -/
def proxyMaxRetries : Nat := 3

/-- `loadProxies(proxies)`: keeps candidates whose address is not in the
blacklist set (a check that compares an address string against the set's
entries), then seeds a score of 1.0 under the address key for addresses not
yet scored. -/
def loadProxies (proxies : List Proxy) (st : ProxyPoolState) : ProxyPoolState :=
  let filtered := proxies.filter
    (fun p => !(st.blacklistedProxies.contains (PKey.addr p.proxy_address)))
  let scores := filtered.foldl
    (fun m p =>
      if (m.lookup (PKey.addr p.proxy_address)).isSome then m
      else mapSet m (PKey.addr p.proxy_address) (some 1))
    st.proxyScores
  { st with proxyList := filtered, proxyScores := scores }

/-- `markProxySuccess(proxy)`: reads the object-keyed score with default 1.0
and stores `min(1.0, score + 0.1)` back under the object key. -/
def markProxySuccess (p : Proxy) (st : ProxyPoolState) : ProxyPoolState :=
  let currentScore := jsOrDefault (mapGet st.proxyScores (PKey.obj p.idx)) 1
  { st with proxyScores :=
      mapSet st.proxyScores (PKey.obj p.idx) (some (min 1 (currentScore + 1 / 10))) }

/-- `markProxyFailure(proxy)`: reads the object-keyed score with default 1.0,
stores `max(0, score - 0.2)`, and when the stored score is at most 0.2 adds
the proxy object to the blacklist and removes it from the pool list. -/
def markProxyFailure (p : Proxy) (st : ProxyPoolState) : ProxyPoolState :=
  let currentScore := jsOrDefault (mapGet st.proxyScores (PKey.obj p.idx)) 1
  let scores' := mapSet st.proxyScores (PKey.obj p.idx) (some (max 0 (currentScore - 1 / 5)))
  if jsLeNum (mapGet scores' (PKey.obj p.idx)) (1 / 5) then
    { st with proxyScores := scores',
              blacklistedProxies := PKey.obj p.idx :: st.blacklistedProxies,
              proxyList := st.proxyList.filter (fun q => !(q.idx = p.idx)) }
  else { st with proxyScores := scores' }

/-- Outcome of one validation probe against the target. -/
inductive ProbeOutcome
  | timeout
  | connError
  | response (status : Nat)
deriving DecidableEq, Repr

/-- `this.lastProxyTest.get(proxyId) || 0`. -/
def lastTestOf (st : ProxyPoolState) (p : Proxy) : ℚ :=
  match st.lastProxyTest.lookup p.proxy_address with
  | none => 0
  | some t => t

/-- `validateProxy(proxy)`: returns true without probing when the proxy was
tested within the freshness window; returns false without probing on a
malformed record; otherwise the probe result decides: a received response
stamps `lastProxyTest` and succeeds only on status 200, while a timeout or
connection error yields false without stamping. -/
def validateProxy (nowMs : ℚ) (outcome : ProbeOutcome) (p : Proxy)
    (st : ProxyPoolState) : Bool × ProxyPoolState :=
  if nowMs - lastTestOf st p < proxyTestInterval then (true, st)
  else if p.proxy_address = "" ∨ p.port = "" ∨ p.username = "" ∨ p.password = "" then
    (false, st)
  else
    match outcome with
    | .timeout => (false, st)
    | .connError => (false, st)
    | .response status =>
        (decide (status = 200),
         { st with lastProxyTest := (p.proxy_address, nowMs) :: st.lastProxyTest })

/-- The per-proxy score adjustment inside `validateProxies`: object-keyed
reads with no default, so an absent entry turns into `NaN`. -/
def validateScoreAdjust (isValid : Bool) (p : Proxy)
    (m : List (PKey × JNum)) : List (PKey × JNum) :=
  if isValid then
    mapSet m (PKey.obj p.idx) (jsMinNum 1 (jsAdd (mapGet m (PKey.obj p.idx)) (1 / 10)))
  else
    mapSet m (PKey.obj p.idx) (jsMaxNum 0 (jsSub (mapGet m (PKey.obj p.idx)) (1 / 5)))

/-- `validateProxies()`: probes every pool member (outcomes supplied by the
oracle in list order), adjusts each object-keyed score, then sweeps the pool,
blacklisting members whose object-keyed score is at most 0.2; returns the
count of members that validated. -/
def validateProxies (nowMs : ℚ) (oracle : Nat → ProbeOutcome)
    (st : ProxyPoolState) : ProxyPoolState × Nat :=
  let step := fun (acc : ProxyPoolState × Nat × Nat) (p : Proxy) =>
    let res := validateProxy nowMs (oracle acc.2.2) p acc.1
    ({ res.2 with proxyScores := validateScoreAdjust res.1 p res.2.proxyScores },
     acc.2.1 + (if res.1 then 1 else 0), acc.2.2 + 1)
  let mid := st.proxyList.foldl step (st, 0, 0)
  let st1 := mid.1
  let keep := st1.proxyList.filter
    (fun p => !(jsLeNum (mapGet st1.proxyScores (PKey.obj p.idx)) (1 / 5)))
  let bl := st1.proxyList.filter
    (fun p => jsLeNum (mapGet st1.proxyScores (PKey.obj p.idx)) (1 / 5))
  ({ st1 with proxyList := keep,
              blacklistedProxies := bl.map (fun p => PKey.obj p.idx)
                ++ st1.blacklistedProxies },
   mid.2.1)

/-- The address-keyed score of a proxy, as the sort comparator of
`getNextProxy` reads it. -/
def addrScore (m : List (PKey × JNum)) (p : Proxy) : JNum :=
  mapGet m (PKey.addr p.proxy_address)

/-- Whether the descending-score comparator orders `p` strictly before `q`;
comparisons against `undefined`/`NaN` keep the existing order. -/
def scoreDescBefore (m : List (PKey × JNum)) (p q : Proxy) : Bool :=
  match addrScore m p, addrScore m q with
  | some x, some y => decide (y < x)
  | _, _ => false

/-- Insertion step of the descending-score sort. -/
def insertByScore (m : List (PKey × JNum)) (p : Proxy) : List Proxy → List Proxy
  | [] => [p]
  | q :: qs => if scoreDescBefore m p q then p :: q :: qs else q :: insertByScore m p qs

/-- `[...this.proxyList].sort((a, b) => scores(b) - scores(a))`. -/
def sortByScoreDesc (m : List (PKey × JNum)) : List Proxy → List Proxy
  | [] => []
  | p :: ps => insertByScore m p (sortByScoreDesc m ps)

/-- The inner validation loop of `getNextProxy`: up to `retries` calls of
`validateProxy` on the selected proxy, threading the state and the probe
oracle counter. -/
def validateWithRetries : Nat → ℚ → (Nat → ProbeOutcome) → Nat → Proxy →
    ProxyPoolState → Bool × ProxyPoolState × Nat
  | 0, _, _, octr, _, st => (false, st, octr)
  | r + 1, nowMs, oracle, octr, p, st =>
      let res := validateProxy nowMs (oracle octr) p st
      if res.1 then (true, res.2, octr + 1)
      else validateWithRetries r nowMs oracle (octr + 1) p res.2

/-- `getNextProxy()`: sorts the pool by address-keyed score, picks among the
top 3 (randomness supplied by `rand`), validates the pick up to 3 times; on
success stamps the rotation time and returns the pick; on failure zeroes the
pick's address-keyed score — without blacklisting it or removing it from the
pool — and recurses (fuel bounds the otherwise unbounded recursion). -/
def getNextProxy : Nat → ℚ → (Nat → ProbeOutcome) → Nat → (Nat → Nat) → Nat →
    ProxyPoolState → Option Proxy × ProxyPoolState
  | 0, _, _, _, _, _, st => (none, st)
  | fuel + 1, nowMs, oracle, octr, rand, rctr, st =>
      match sortByScoreDesc st.proxyScores st.proxyList |>.take 3 with
      | [] => (none, st)
      | t :: ts =>
          let top := t :: ts
          let selected := top.getD (rand rctr % top.length) t
          let res := validateWithRetries proxyMaxRetries nowMs oracle octr selected st
          let st' := res.2.1
          if res.1 then (some selected, { st' with lastRotation := some nowMs })
          else
            let zeroed := mapSet st'.proxyScores (PKey.addr selected.proxy_address) (some 0)
            getNextProxy fuel nowMs oracle res.2.2 rand (rctr + 1)
              { st' with proxyScores := zeroed }

/-- A stored score that is an actual number inside `[0, 1]`, the
specification's invariant for reliability scores. -/
def scoreIsUnitNumber (v : JNum) : Prop :=
  ∃ q : ℚ, v = some q ∧ 0 ≤ q ∧ q ≤ 1

/-- A well-formed sample proxy record. -/
def sampleProxy : Proxy := ⟨0, "1.2.3.4", "80", "u", "w"⟩

/-- The pool state right after loading `sampleProxy` into a fresh manager:
one pool member whose score 1.0 sits under the address key. -/
def loadedPool : ProxyPoolState := loadProxies [sampleProxy] ProxyPoolState.init

lemma loadedPool_eq :
    loadedPool =
      { proxyList := [sampleProxy],
        proxyScores := [(PKey.addr "1.2.3.4", some 1)],
        blacklistedProxies := [],
        lastProxyTest := [],
        lastRotation := none } := by
  rfl

lemma loadedPool_stale :
    ¬((3600000 : ℚ) - lastTestOf loadedPool sampleProxy < proxyTestInterval) := by
  have h0 : lastTestOf loadedPool sampleProxy = 0 := rfl
  rw [h0, proxyTestInterval]
  norm_num

lemma validateProxy_loadedPool_timeout :
    validateProxy 3600000 ProbeOutcome.timeout sampleProxy loadedPool
      = (false, loadedPool) := by
  unfold validateProxy
  rw [if_neg loadedPool_stale]
  rfl

/-- **C4.** A validation pass over the freshly loaded pool stores `NaN` as
the proxy's object-keyed reliability score: `validateProxies` reads the score
under the proxy object while `loadProxies` seeded it under the address
string, and unlike `markProxyFailure` it applies no `|| 1.0` default, so the
adjustment computes `undefined - 0.2 = NaN` — not a number in `[0, 1]` — and
the `NaN` score also escapes the `<= 0.2` blacklist sweep. -/
theorem validateProxies_stores_nan_score :
    mapGet (validateProxies 3600000 (fun _ => ProbeOutcome.timeout) loadedPool).1.proxyScores
        (PKey.obj 0) = none ∧
      ¬ scoreIsUnitNumber
        (mapGet (validateProxies 3600000 (fun _ => ProbeOutcome.timeout) loadedPool).1.proxyScores
          (PKey.obj 0)) ∧
      sampleProxy ∈ (validateProxies 3600000 (fun _ => ProbeOutcome.timeout) loadedPool).1.proxyList ∧
      (validateProxies 3600000 (fun _ => ProbeOutcome.timeout) loadedPool).1.blacklistedProxies
        = [] := by
  have hrun : validateProxies 3600000 (fun _ => ProbeOutcome.timeout) loadedPool
      = ({ proxyList := [sampleProxy],
           proxyScores := [(PKey.obj 0, none), (PKey.addr "1.2.3.4", some 1)],
           blacklistedProxies := [],
           lastProxyTest := [],
           lastRotation := none }, 0) := by
    unfold validateProxies
    simp only [loadedPool_eq, List.foldl]
    simp only [show validateProxy 3600000 ((fun _ => ProbeOutcome.timeout) 0) sampleProxy
          { proxyList := [sampleProxy],
            proxyScores := [(PKey.addr "1.2.3.4", some 1)],
            blacklistedProxies := [],
            lastProxyTest := [],
            lastRotation := none }
        = (false,
           { proxyList := [sampleProxy],
             proxyScores := [(PKey.addr "1.2.3.4", some 1)],
             blacklistedProxies := [],
             lastProxyTest := [],
             lastRotation := none })
      from loadedPool_eq ▸ validateProxy_loadedPool_timeout]
    rfl
  rw [hrun]
  refine ⟨rfl, ?_, by decide, rfl⟩
  rintro ⟨q, hq, -⟩
  simp [mapGet] at hq

lemma validateWithRetries_all_fail (r : Nat) (nowMs : ℚ) (oracle : Nat → ProbeOutcome)
    (octr : Nat) (p : Proxy) (st : ProxyPoolState)
    (h : ∀ i, validateProxy nowMs (oracle i) p st = (false, st)) :
    validateWithRetries r nowMs oracle octr p st = (false, st, octr + r) := by
  induction r generalizing octr with
  | zero => simp [validateWithRetries]
  | succ n ih =>
      simp only [validateWithRetries, h octr]
      simpa [Nat.add_assoc, Nat.add_comm 1] using ih (octr + 1)

/-- **C5 counterexample.** When the validation of the selected proxy fails,
`getNextProxy` sets the proxy's address-keyed score to 0 — at or below the
0.2 blacklist threshold — yet blacklists nothing and leaves the proxy in the
pool, so a record whose score has fallen to 0.2 or below is not blacklisted
and remains selectable. -/
theorem getNextProxy_zeroes_score_without_blacklisting :
    (getNextProxy 1 3600000 (fun _ => ProbeOutcome.timeout) 0 (fun _ => 0) 0 loadedPool).2
        = { loadedPool with
              proxyScores := mapSet loadedPool.proxyScores (PKey.addr "1.2.3.4") (some 0) } ∧
      jsLeNum
        (mapGet (getNextProxy 1 3600000 (fun _ => ProbeOutcome.timeout) 0 (fun _ => 0) 0
            loadedPool).2.proxyScores (PKey.addr "1.2.3.4")) (1 / 5) = true ∧
      (getNextProxy 1 3600000 (fun _ => ProbeOutcome.timeout) 0 (fun _ => 0) 0
          loadedPool).2.blacklistedProxies = [] ∧
      sampleProxy ∈ (getNextProxy 1 3600000 (fun _ => ProbeOutcome.timeout) 0 (fun _ => 0) 0
          loadedPool).2.proxyList := by
  have hv : ∀ i, validateProxy 3600000 ((fun _ : Nat => ProbeOutcome.timeout) i) sampleProxy
      loadedPool = (false, loadedPool) :=
    fun _ => validateProxy_loadedPool_timeout
  have hw := validateWithRetries_all_fail proxyMaxRetries 3600000 (fun _ => ProbeOutcome.timeout)
    0 sampleProxy loadedPool hv
  have hrun : getNextProxy 1 3600000 (fun _ => ProbeOutcome.timeout) 0 (fun _ => 0) 0 loadedPool
      = (none, { loadedPool with
            proxyScores := mapSet loadedPool.proxyScores (PKey.addr "1.2.3.4") (some 0) }) := by
    rw [show (1 : Nat) = 0 + 1 from rfl]
    simp only [getNextProxy]
    simp only [show sortByScoreDesc loadedPool.proxyScores loadedPool.proxyList = [sampleProxy]
      from rfl]
    simp only [List.take, List.length_cons, List.length_nil, Nat.mod_self, List.getD]
    norm_num
    simp only [hw]
    rfl
  refine ⟨by rw [hrun], ?_, by rw [hrun]; rfl, by rw [hrun]; decide⟩
  rw [hrun]
  have hlook : mapGet (mapSet loadedPool.proxyScores (PKey.addr "1.2.3.4") (some 0))
      (PKey.addr "1.2.3.4") = some 0 := rfl
  simp only [hlook, jsLeNum]
  norm_num

/-- **C8 counterexample.** A probe that times out returns false but does not
update the last-validated timestamp: after a timed-out validation attempt the
`lastProxyTest` map is still empty, though the claim requires the timestamp
to be updated on every attempt regardless of outcome. -/
theorem validateProxy_timeout_skips_timestamp :
    (validateProxy 3600000 ProbeOutcome.timeout sampleProxy loadedPool).1 = false ∧
      (validateProxy 3600000 ProbeOutcome.timeout sampleProxy loadedPool).2.lastProxyTest
        = [] ∧
      (validateProxy 3600000 ProbeOutcome.timeout sampleProxy loadedPool).2 = loadedPool := by
  rw [validateProxy_loadedPool_timeout]
  exact ⟨rfl, rfl, rfl⟩

/-- **C8 amended.** A proxy probed within the 30-minute freshness window is
not re-probed: validation returns true with the state untouched.  Outside
the window, on a well-formed record, a timeout or connection error yields
false with the timestamp not updated, and a received response stamps
`lastProxyTest` with the current time and succeeds exactly on status 200. -/
theorem validateProxy_amended (nowMs : ℚ) (p : Proxy) (st : ProxyPoolState) :
    (nowMs - lastTestOf st p < proxyTestInterval →
        ∀ outcome, validateProxy nowMs outcome p st = (true, st)) ∧
      (¬(nowMs - lastTestOf st p < proxyTestInterval) →
        ¬(p.proxy_address = "" ∨ p.port = "" ∨ p.username = "" ∨ p.password = "") →
        validateProxy nowMs ProbeOutcome.timeout p st = (false, st) ∧
          validateProxy nowMs ProbeOutcome.connError p st = (false, st) ∧
          ∀ status, validateProxy nowMs (ProbeOutcome.response status) p st
            = (decide (status = 200),
               { st with lastProxyTest := (p.proxy_address, nowMs) :: st.lastProxyTest })) := by
  constructor
  · intro hfresh outcome
    unfold validateProxy
    rw [if_pos hfresh]
  · intro hstale hstruct
    refine ⟨?_, ?_, fun status => ?_⟩ <;>
      · unfold validateProxy
        rw [if_neg hstale, if_neg hstruct]

/-- Witness for the amended C8 at a concrete proxy and pool state. -/
theorem validateProxy_amended_witness :
    ((3600000 : ℚ) - lastTestOf loadedPool sampleProxy < proxyTestInterval →
        ∀ outcome, validateProxy 3600000 outcome sampleProxy loadedPool = (true, loadedPool)) ∧
      (¬((3600000 : ℚ) - lastTestOf loadedPool sampleProxy < proxyTestInterval) →
        ¬(sampleProxy.proxy_address = "" ∨ sampleProxy.port = ""
            ∨ sampleProxy.username = "" ∨ sampleProxy.password = "") →
        validateProxy 3600000 ProbeOutcome.timeout sampleProxy loadedPool = (false, loadedPool) ∧
          validateProxy 3600000 ProbeOutcome.connError sampleProxy loadedPool
            = (false, loadedPool) ∧
          ∀ status, validateProxy 3600000 (ProbeOutcome.response status) sampleProxy loadedPool
            = (decide (status = 200),
               { loadedPool with
                   lastProxyTest := (sampleProxy.proxy_address, 3600000)
                     :: loadedPool.lastProxyTest })) :=
  validateProxy_amended 3600000 sampleProxy loadedPool

lemma mapGet_mapSet_same (m : List (PKey × JNum)) (k : PKey) (v : JNum) :
    mapGet (mapSet m k v) k = v := by
  simp [mapGet, mapSet, List.lookup]

lemma mem_insertByScore (m : List (PKey × JNum)) (p x : Proxy) (l : List Proxy) :
    x ∈ insertByScore m p l ↔ x = p ∨ x ∈ l := by
  induction l with
  | nil => simp [insertByScore]
  | cons q qs ih =>
      unfold insertByScore
      split_ifs <;> simp [ih] <;> tauto

lemma mem_sortByScoreDesc (m : List (PKey × JNum)) (l : List Proxy) (x : Proxy) :
    x ∈ sortByScoreDesc m l ↔ x ∈ l := by
  induction l with
  | nil => simp [sortByScoreDesc]
  | cons q qs ih => simp [sortByScoreDesc, mem_insertByScore, ih]

lemma list_getD_mem {α : Type} (l : List α) (i : Nat) (d : α) (hd : d ∈ l) :
    l.getD i d ∈ l := by
  rcases h : l.get? i with _ | x
  · rw [List.getD_eq_get?, h]; exact hd
  · rw [List.getD_eq_get?, h]; exact List.get?_mem h

lemma validateProxy_pool_fields (nowMs : ℚ) (o : ProbeOutcome) (p : Proxy)
    (st : ProxyPoolState) :
    (validateProxy nowMs o p st).2.proxyList = st.proxyList ∧
      (validateProxy nowMs o p st).2.blacklistedProxies = st.blacklistedProxies := by
  cases o <;> (unfold validateProxy; split_ifs <;> simp)

lemma validateWithRetries_pool_fields (r : Nat) (nowMs : ℚ) (oracle : Nat → ProbeOutcome)
    (octr : Nat) (p : Proxy) (st : ProxyPoolState) :
    (validateWithRetries r nowMs oracle octr p st).2.1.proxyList = st.proxyList ∧
      (validateWithRetries r nowMs oracle octr p st).2.1.blacklistedProxies
        = st.blacklistedProxies := by
  induction r generalizing octr st with
  | zero => simp [validateWithRetries]
  | succ n ih =>
      simp only [validateWithRetries]
      split_ifs with h
      · simpa using validateProxy_pool_fields nowMs (oracle octr) p st
      · have hvp := validateProxy_pool_fields nowMs (oracle octr) p st
        have hih := ih (octr + 1) (validateProxy nowMs (oracle octr) p st).2
        exact ⟨hih.1.trans hvp.1, hih.2.trans hvp.2⟩

lemma getNextProxy_mem (fuel : Nat) :
    ∀ (nowMs : ℚ) (oracle : Nat → ProbeOutcome) (octr : Nat) (rand : Nat → Nat)
      (rctr : Nat) (st : ProxyPoolState) (q : Proxy) (st2 : ProxyPoolState),
      getNextProxy fuel nowMs oracle octr rand rctr st = (some q, st2) →
        q ∈ st.proxyList := by
  induction fuel with
  | zero =>
      intro nowMs oracle octr rand rctr st q st2 h
      simp [getNextProxy] at h
  | succ n ih =>
      intro nowMs oracle octr rand rctr st q st2 h
      rw [getNextProxy] at h
      rcases hsort : (sortByScoreDesc st.proxyScores st.proxyList).take 3 with _ | ⟨t, ts⟩
      · rw [hsort] at h; simp at h
      · rw [hsort] at h
        simp only [] at h
        set sel := (t :: ts).getD (rand rctr % (t :: ts).length) t with hsel
        have hselmem : sel ∈ st.proxyList := by
          have h1 : sel ∈ t :: ts := list_getD_mem _ _ _ (List.mem_cons_self t ts)
          have h2 : t :: ts ⊆ sortByScoreDesc st.proxyScores st.proxyList := by
            rw [← hsort]; exact List.take_subset 3 _
          exact (mem_sortByScoreDesc _ _ _).mp (h2 h1)
        by_cases hres : (validateWithRetries proxyMaxRetries nowMs oracle octr sel st).1 = true
        · rw [if_pos hres] at h
          obtain ⟨rfl, -⟩ : sel = q ∧ _ := by
            have := h
            injection this with h1 h2
            exact ⟨Option.some.inj h1, h2⟩
          exact hselmem
        · rw [if_neg hres] at h
          have hmem := ih nowMs oracle
            (validateWithRetries proxyMaxRetries nowMs oracle octr sel st).2.2 rand (rctr + 1)
            _ q st2 h
          have hfields := validateWithRetries_pool_fields proxyMaxRetries nowMs oracle octr sel st
          simpa [hfields.1] using hmem

/-- **C5 amended.** `markProxyFailure` blacklists the record exactly when the
updated object-keyed score is at most 0.2, removing it from the pool list in
the same step (so an immediately following selection cannot return it), and
otherwise leaves the blacklist and pool untouched; `getNextProxy` only ever
returns a member of the current pool list.  However — per the counterexample
— `getNextProxy`'s own validation-failure path can drop an address-keyed
score to 0 without blacklisting, so a score at or below the threshold does
not by itself imply blacklisting. -/
theorem proxy_blacklist_amended (p : Proxy) (st : ProxyPoolState) :
    (jsLeNum (mapGet (markProxyFailure p st).proxyScores (PKey.obj p.idx)) (1 / 5) = true →
        PKey.obj p.idx ∈ (markProxyFailure p st).blacklistedProxies ∧
        ∀ q ∈ (markProxyFailure p st).proxyList, q.idx ≠ p.idx) ∧
      (jsLeNum (mapGet (markProxyFailure p st).proxyScores (PKey.obj p.idx)) (1 / 5) = false →
        (markProxyFailure p st).blacklistedProxies = st.blacklistedProxies ∧
        (markProxyFailure p st).proxyList = st.proxyList) ∧
      ∀ fuel nowMs oracle octr rand rctr q st2,
        getNextProxy fuel nowMs oracle octr rand rctr st = (some q, st2) →
          q ∈ st.proxyList := by
  have hscores : (markProxyFailure p st).proxyScores
      = mapSet st.proxyScores (PKey.obj p.idx)
          (some (max 0 (jsOrDefault (mapGet st.proxyScores (PKey.obj p.idx)) 1 - 1 / 5))) := by
    simp only [markProxyFailure]
    split_ifs <;> rfl
  have hget : mapGet (markProxyFailure p st).proxyScores (PKey.obj p.idx)
      = some (max 0 (jsOrDefault (mapGet st.proxyScores (PKey.obj p.idx)) 1 - 1 / 5)) := by
    rw [hscores, mapGet_mapSet_same]
  refine ⟨fun hle => ?_, fun hle => ?_, fun fuel nowMs oracle octr rand rctr q st2 h =>
    getNextProxy_mem fuel nowMs oracle octr rand rctr st q st2 h⟩
  · rw [hget] at hle
    have heq : (markProxyFailure p st).blacklistedProxies
          = PKey.obj p.idx :: st.blacklistedProxies ∧
        (markProxyFailure p st).proxyList
          = st.proxyList.filter (fun q => !(q.idx = p.idx)) := by
      simp only [markProxyFailure]
      rw [if_pos (by rw [mapGet_mapSet_same]; exact hle)]
      exact ⟨rfl, rfl⟩
    refine ⟨heq.1 ▸ List.mem_cons_self _ _, fun q hq => ?_⟩
    rw [heq.2] at hq
    simpa using List.of_mem_filter hq
  · rw [hget] at hle
    have heq : (markProxyFailure p st).blacklistedProxies = st.blacklistedProxies ∧
        (markProxyFailure p st).proxyList = st.proxyList := by
      simp only [markProxyFailure]
      rw [if_neg (by rw [mapGet_mapSet_same, hle]; exact Bool.false_ne_true)]
      exact ⟨rfl, rfl⟩
    exact heq

/-- Witness instantiating the amended C5 at a concrete proxy and pool. -/
theorem proxy_blacklist_amended_witness :
    (jsLeNum (mapGet (markProxyFailure sampleProxy loadedPool).proxyScores (PKey.obj 0))
          (1 / 5) = true →
        PKey.obj 0 ∈ (markProxyFailure sampleProxy loadedPool).blacklistedProxies ∧
        ∀ q ∈ (markProxyFailure sampleProxy loadedPool).proxyList, q.idx ≠ sampleProxy.idx) ∧
      (jsLeNum (mapGet (markProxyFailure sampleProxy loadedPool).proxyScores (PKey.obj 0))
          (1 / 5) = false →
        (markProxyFailure sampleProxy loadedPool).blacklistedProxies
          = loadedPool.blacklistedProxies ∧
        (markProxyFailure sampleProxy loadedPool).proxyList = loadedPool.proxyList) ∧
      ∀ fuel nowMs oracle octr rand rctr q st2,
        getNextProxy fuel nowMs oracle octr rand rctr loadedPool = (some q, st2) →
          q ∈ loadedPool.proxyList :=
  proxy_blacklist_amended sampleProxy loadedPool

/-! ## QueueManager (queue-manager variant) -/

/-- A profile entry of the queue/processed files; only `profileUrl` matters
for deduplication (the `queuedAt` stamp the code spreads in does not change
the url). -/
structure Profile where
  profileUrl : String
  name : String
deriving DecidableEq, Repr

/-- The contents of `queue.json` and `processed.json`. -/
structure QueueState where
  queue : List Profile
  processed : List Profile
deriving DecidableEq, Repr

/-- `addToQueue(profile)`: refuses (returning false, files untouched) when
the url already occurs in the queue or in the processed file; otherwise
appends to the queue and saves. -/
def addToQueue (p : Profile) (st : QueueState) : Bool × QueueState :=
  let isQueued := st.queue.any (fun q => q.profileUrl = p.profileUrl)
  let isProcessed := st.processed.any (fun q => q.profileUrl = p.profileUrl)
  if isQueued || isProcessed then (false, st)
  else (true, { st with queue := st.queue ++ [p] })

/-- `addBatchToQueue(profiles)`: walks the batch in order, skipping entries
already present in the live queue (including ones pushed earlier in the same
batch) or in the processed file, and returns the number added. -/
def addBatchToQueue (ps : List Profile) (st : QueueState) : Nat × QueueState :=
  match ps with
  | [] => (0, st)
  | p :: rest =>
      let isQueued := st.queue.any (fun q => q.profileUrl = p.profileUrl)
      let isProcessed := st.processed.any (fun q => q.profileUrl = p.profileUrl)
      if isQueued || isProcessed then addBatchToQueue rest st
      else
        let res := addBatchToQueue rest { st with queue := st.queue ++ [p] }
        (res.1 + 1, res.2)

/-- A call against the queue manager. -/
inductive QueueOp
  | one (p : Profile)
  | batch (ps : List Profile)
deriving DecidableEq, Repr

/-- Running a sequence of `addToQueue`/`addBatchToQueue` calls. -/
def runQueueOps : List QueueOp → QueueState → QueueState
  | [], st => st
  | QueueOp.one p :: rest, st => runQueueOps rest (addToQueue p st).2
  | QueueOp.batch ps :: rest, st => runQueueOps rest (addBatchToQueue ps st).2

/-- The profile urls of a list of entries. -/
def urls (l : List Profile) : List String := l.map (fun q => q.profileUrl)

/-- How many entries of `l` carry the url `u`. -/
def countUrl (l : List Profile) (u : String) : Nat :=
  (l.filter (fun q => q.profileUrl = u)).length

lemma push_nodup (p : Profile) (l : List Profile)
    (hA : l.any (fun q => q.profileUrl = p.profileUrl) = false)
    (h : (urls l).Nodup) : (urls (l ++ [p])).Nodup := by
  have hnotmem : p.profileUrl ∉ urls l := by
    simp only [urls, List.mem_map]
    rintro ⟨q, hq, hqe⟩
    rw [List.any_eq_false] at hA
    simpa [hqe] using hA q hq
  simp [urls, List.nodup_append]
  exact ⟨by simpa [urls] using h, by simpa [urls] using hnotmem⟩

lemma addToQueue_nodup (p : Profile) (st : QueueState)
    (h : (urls st.queue).Nodup) : (urls (addToQueue p st).2.queue).Nodup := by
  simp only [addToQueue]
  split_ifs with hc
  · exact h
  · have hAB : (st.queue.any (fun q => q.profileUrl = p.profileUrl)
        || st.processed.any (fun q => q.profileUrl = p.profileUrl)) = false := by
      simpa using hc
    exact push_nodup p st.queue (Bool.or_eq_false_iff.mp hAB).1 h

lemma addBatchToQueue_nodup : ∀ (ps : List Profile) (st : QueueState),
    (urls st.queue).Nodup → (urls (addBatchToQueue ps st).2.queue).Nodup := by
  intro ps
  induction ps with
  | nil => intro st h; exact h
  | cons p rest ih =>
      intro st h
      simp only [addBatchToQueue]
      split_ifs with hc
      · exact ih st h
      · have hAB : (st.queue.any (fun q => q.profileUrl = p.profileUrl)
            || st.processed.any (fun q => q.profileUrl = p.profileUrl)) = false := by
          simpa using hc
        exact ih _ (push_nodup p st.queue (Bool.or_eq_false_iff.mp hAB).1 h)

lemma runQueueOps_nodup : ∀ (ops : List QueueOp) (st : QueueState),
    (urls st.queue).Nodup → (urls (runQueueOps ops st).queue).Nodup := by
  intro ops
  induction ops with
  | nil => intro st h; exact h
  | cons op rest ih =>
      intro st h
      cases op with
      | one p => exact ih _ (addToQueue_nodup p st h)
      | batch ps => exact ih _ (addBatchToQueue_nodup ps st h)

lemma addBatch_count_of_present (p : Profile) : ∀ (ps : List Profile) (st : QueueState),
    (st.queue.any (fun q => q.profileUrl = p.profileUrl)
      || st.processed.any (fun q => q.profileUrl = p.profileUrl)) = true →
    countUrl (addBatchToQueue ps st).2.queue p.profileUrl = countUrl st.queue p.profileUrl := by
  intro ps
  induction ps with
  | nil => intro st _; rfl
  | cons p' rest ih =>
      intro st h
      simp only [addBatchToQueue]
      split_ifs with hc
      · exact ih st h
      · have hne : ¬(p'.profileUrl = p.profileUrl) := by
          intro heq
          apply hc
          rw [← heq] at h
          exact h
        have h' : (({ st with queue := st.queue ++ [p'] } : QueueState).queue.any
              (fun q => q.profileUrl = p.profileUrl)
            || ({ st with queue := st.queue ++ [p'] } : QueueState).processed.any
              (fun q => q.profileUrl = p.profileUrl)) = true := by
          rcases Bool.or_eq_true_iff.mp h with hA | hB
          · simp only [List.any_append, hA]
            simp
          · simp [hB]
        rw [ih _ h']
        simp [countUrl, List.filter_append, hne]

/-- **C10.** A profile whose url already occurs in the queue or processed
file is refused by `addToQueue` with both files untouched, and contributes no
entry under `addBatchToQueue`; consequently, starting from a queue without
duplicate urls, no sequence of `addToQueue`/`addBatchToQueue` calls ever
produces two queue entries with the same url. -/
theorem queueManager_never_duplicates (p : Profile) (st : QueueState)
    (hmem : (st.queue.any (fun q => q.profileUrl = p.profileUrl)
      || st.processed.any (fun q => q.profileUrl = p.profileUrl)) = true) :
    addToQueue p st = (false, st) ∧
      (∀ ps, countUrl (addBatchToQueue ps st).2.queue p.profileUrl
        = countUrl st.queue p.profileUrl) ∧
      ∀ ops st0, (urls (st0 : QueueState).queue).Nodup →
        (urls (runQueueOps ops st0).queue).Nodup := by
  refine ⟨?_, fun ps => addBatch_count_of_present p ps st hmem,
    fun ops st0 h => runQueueOps_nodup ops st0 h⟩
  simp [addToQueue, hmem]

/-- Witness for C10: a concrete already-queued profile. -/
theorem queueManager_never_duplicates_witness :
    ((([⟨"https://a.example/p1", "A"⟩] : List Profile).any
          (fun q => q.profileUrl = (⟨"https://a.example/p1", "A"⟩ : Profile).profileUrl)
        || ([] : List Profile).any
          (fun q => q.profileUrl = (⟨"https://a.example/p1", "A"⟩ : Profile).profileUrl))
        = true) ∧
      (addToQueue ⟨"https://a.example/p1", "A"⟩ ⟨[⟨"https://a.example/p1", "A"⟩], []⟩
          = (false, ⟨[⟨"https://a.example/p1", "A"⟩], []⟩) ∧
        (∀ ps, countUrl (addBatchToQueue ps ⟨[⟨"https://a.example/p1", "A"⟩], []⟩).2.queue
            (⟨"https://a.example/p1", "A"⟩ : Profile).profileUrl
          = countUrl ([⟨"https://a.example/p1", "A"⟩] : List Profile)
              (⟨"https://a.example/p1", "A"⟩ : Profile).profileUrl) ∧
        ∀ ops st0, (urls (st0 : QueueState).queue).Nodup →
          (urls (runQueueOps ops st0).queue).Nodup) :=
  ⟨by decide,
   queueManager_never_duplicates ⟨"https://a.example/p1", "A"⟩
     ⟨[⟨"https://a.example/p1", "A"⟩], []⟩ (by decide)⟩
